import Mathlib

set_option maxRecDepth 100000

/-!
Verification of the ATS Resume Evaluator (`Codes.py`), a Streamlit
application that extracts text from uploaded resumes, builds a prompt,
calls an external generative-text service, parses the JSON-shaped reply
and aggregates the parsed rows into a downloadable CSV report.

Python strings are modelled as `List Char`.  The external pieces the
program calls are modelled at their observable boundary:
`json.loads` as a recursive-descent parser of the JSON fragment the
program exchanges (objects, arrays, strings, integer numerals, booleans,
null — fractional numbers never occur in the program's payloads),
the PDF/DOCX decoders as the page texts they would return, and the
generative service as a function from prompt to either a reply or an
exception.  A Python runtime error that the program does not catch is
modelled as `Option.none` propagating out of the run.
-/

/-- Python `str`, modelled as a list of characters. -/
abbrev Str := List Char

/-- A decoded JSON value, the result type of the `json.loads` model.
Numbers are integers: the program's payloads never carry fractional
numbers. -/
inductive Json where
  | null
  | bool (b : Bool)
  | num (n : Int)
  | str (s : Str)
  | arr (elems : List Json)
  | obj (members : List (Str × Json))

/-- JSON inter-token whitespace (space, tab, newline, carriage return),
as skipped by `json.loads`. -/
def jsonWs (c : Char) : Bool :=
  c = ' ' ∨ c = '\t' ∨ c = '\n' ∨ c = '\r'

/-- Drop leading JSON whitespace. -/
def skipWs (s : Str) : Str := s.dropWhile jsonWs

/-- Decode one character of a JSON string body, unescaping the standard
escapes; returns the decoded content and the input remaining after the
closing quote, or `none` when the string is unterminated or an escape is
malformed. -/
def parseStrBody : Str → Option (Str × Str)
  | [] => none
  | '"' :: rest => some ([], rest)
  | '\\' :: e :: rest =>
    match e with
    | '"' => (parseStrBody rest).map (fun p => ('"' :: p.1, p.2))
    | '\\' => (parseStrBody rest).map (fun p => ('\\' :: p.1, p.2))
    | '/' => (parseStrBody rest).map (fun p => ('/' :: p.1, p.2))
    | 'b' => (parseStrBody rest).map (fun p => ('\x08' :: p.1, p.2))
    | 'f' => (parseStrBody rest).map (fun p => ('\x0c' :: p.1, p.2))
    | 'n' => (parseStrBody rest).map (fun p => ('\n' :: p.1, p.2))
    | 'r' => (parseStrBody rest).map (fun p => ('\r' :: p.1, p.2))
    | 't' => (parseStrBody rest).map (fun p => ('\t' :: p.1, p.2))
    | _ => none
  | c :: rest => (parseStrBody rest).map (fun p => (c :: p.1, p.2))

/-- Value of a decimal digit, or `none` for a non-digit. -/
def digitVal (c : Char) : Option Nat :=
  if 48 ≤ c.toNat ∧ c.toNat ≤ 57 then some (c.toNat - 48) else none

/-- Consume a non-empty run of decimal digits, returning its value and
the remaining input. -/
def parseDigits : Str → Nat → Option (Nat × Str)
  | c :: rest, acc =>
    match digitVal c with
    | some d =>
      match parseDigits rest (acc * 10 + d) with
      | some r => some r
      | none => some (acc * 10 + d, rest)
    | none => none
  | [], _ => none

/-- Python `dict` insertion: re-assigning an existing key keeps its
position and replaces its value, a new key is appended.  `json.loads`
builds its object this way, so a duplicated key in the source text ends
with the later value. -/
def dictInsert (kvs : List (Str × Json)) (k : Str) (v : Json) : List (Str × Json) :=
  match kvs with
  | [] => [(k, v)]
  | (k', v') :: rest =>
    if k' = k then (k', v) :: rest else (k', v') :: dictInsert rest k v

mutual

/-- Parse one JSON value from the head of the input (fuel-bounded
recursive descent); returns the value and the remaining input. -/
def parseVal : Nat → Str → Option (Json × Str)
  | 0, _ => none
  | fuel + 1, s =>
    match skipWs s with
    | '{' :: rest =>
      match skipWs rest with
      | '}' :: rest' => some (Json.obj [], rest')
      | _ => (parseMembers fuel (skipWs rest) []).map (fun p => (Json.obj p.1, p.2))
    | '[' :: rest =>
      match skipWs rest with
      | ']' :: rest' => some (Json.arr [], rest')
      | _ => (parseItems fuel (skipWs rest) []).map (fun p => (Json.arr p.1, p.2))
    | '"' :: rest => (parseStrBody rest).map (fun p => (Json.str p.1, p.2))
    | 't' :: 'r' :: 'u' :: 'e' :: rest => some (Json.bool true, rest)
    | 'f' :: 'a' :: 'l' :: 's' :: 'e' :: rest => some (Json.bool false, rest)
    | 'n' :: 'u' :: 'l' :: 'l' :: rest => some (Json.null, rest)
    | '-' :: rest =>
      match parseDigits rest 0 with
      | some (n, rest') => some (Json.num (-(n : Int)), rest')
      | none => none
    | s' =>
      match parseDigits s' 0 with
      | some (n, rest') => some (Json.num (n : Int), rest')
      | none => none

/-- Parse the members of a JSON object after its `{` (at least one
member), accumulating a Python-style dict. -/
def parseMembers : Nat → Str → List (Str × Json) → Option (List (Str × Json) × Str)
  | 0, _, _ => none
  | fuel + 1, s, acc =>
    match skipWs s with
    | '"' :: rest =>
      match parseStrBody rest with
      | some (key, rest') =>
        match skipWs rest' with
        | ':' :: rest'' =>
          match parseVal fuel rest'' with
          | some (v, rest''') =>
            match skipWs rest''' with
            | ',' :: more => parseMembers fuel more (dictInsert acc key v)
            | '}' :: more => some (dictInsert acc key v, more)
            | _ => none
          | none => none
        | _ => none
      | none => none
    | _ => none

/-- Parse the items of a JSON array after its `[` (at least one item). -/
def parseItems : Nat → Str → List Json → Option (List Json × Str)
  | 0, _, _ => none
  | fuel + 1, s, acc =>
    match parseVal fuel s with
    | some (v, rest) =>
      match skipWs rest with
      | ',' :: more => parseItems fuel more (acc ++ [v])
      | ']' :: more => some (acc ++ [v], more)
      | _ => none
    | none => none

end

/-- Model of Python `json.loads` on the JSON fragment the program
exchanges: the whole input, up to surrounding whitespace, must be one
JSON value, wrapping objects with `Json.obj`; otherwise (a
`json.JSONDecodeError` in Python) the result is `none`. -/
def json_loads (s : Str) : Option Json :=
  match parseVal (s.length + 1) s with
  | some (v, rest) => if skipWs rest = [] then some v else none
  | none => none

/-- Model of `re.search(r"\x7b.*\x7d", response, re.DOTALL)` followed by
`match.group()`: with `re.DOTALL` the greedy `.*` spans newlines, so the
leftmost match runs from the first `\x7b` of the text to the last `\x7d`
of the text, provided that `\x7d` comes later; otherwise there is no
match. -/
def braceExtract (s : Str) : Option Str :=
  let t := s.dropWhile (fun c => ¬ c = '{')
  let r := t.reverse.dropWhile (fun c => ¬ c = '}')
  if r.isEmpty then none else some r.reverse

/-- ASCII lowercasing of one character, the effect of Python
`str.lower()` on the character range the claims concern (`str.lower`
additionally maps non-ASCII uppercase letters, none of which lie in the
ASCII uppercase range before or after the mapping). -/
def pyLower (c : Char) : Char :=
  if 65 ≤ c.toNat ∧ c.toNat ≤ 90 then Char.ofNat (c.toNat + 32) else c

/-- Model of Python `str.lower()`. -/
def strLower (s : Str) : Str := s.map pyLower

/-- Python `str` whitespace, as stripped by `str.strip()`. -/
def pyWs (c : Char) : Bool :=
  c = ' ' ∨ c = '\t' ∨ c = '\n' ∨ c = '\r' ∨ c = '\x0b' ∨ c = '\x0c'

/-- Model of Python `str.strip()`: remove leading and trailing
whitespace. -/
def pyStrip (s : Str) : Str :=
  ((s.dropWhile pyWs).reverse.dropWhile pyWs).reverse

/-- The decodable content of an uploaded file, at the boundary of the
external decoders: a PDF is the list of its pages' extracted texts
(`page.extract_text()` per page), a DOCX is its visible text
(`docx2txt.process`), and anything else is content neither decoder
accepts. -/
inductive DocContent where
  | pdfDoc (pages : List Str)
  | docxDoc (text : Str)
  | rawDoc

/-- An uploaded file: its name and its content. -/
structure UploadedFile where
  name : Str
  content : DocContent

/-- Model of `input_resume_text` (`Codes.py` lines 72-78): dispatch on
the file-name suffix; for `.pdf` concatenate the non-empty page texts,
for `.docx` return the document text, otherwise return the empty
string.  `none` models an exception from the underlying decoder (a
`.pdf`/`.docx` name whose content the decoder rejects), which the
source does not catch. -/
def input_resume_text (f : UploadedFile) : Option Str :=
  if (".pdf").data.isSuffixOf f.name then
    match f.content with
    | .pdfDoc pages => some (pages.filter (fun p => ¬ p = [])).flatten
    | _ => none
  else if (".docx").data.isSuffixOf f.name then
    match f.content with
    | .docxDoc text => some text
    | _ => none
  else some []

/-- Literal prompt text before the first `linkedin` substitution
(`input_prompt`, `Codes.py` lines 91-98; `\x7b\x7b`/`\x7d\x7d` in the
Python template render as literal braces). -/
def promptLit1 : Str :=
  ("\nAct like an ATS. Evaluate this resume against the JD.\nReturn JSON:\n\x7b\"JD Match\":\"%\",\"MissingKeywords\":[],\"Profile Summary\":\"\",\"Candidate Name\":\"\",\"Role\":\"\",\"Current Company\":\"\",\"Duration\":\"\",\"Overall Experience\":\"\",\"LinkedIn\":\"").data

/-- Literal prompt text between the first `linkedin` substitution and the
`text` substitution. -/
def promptLit2 : Str := ("\"\x7d\nResume: ").data

/-- Literal prompt text between the `text` and `jd` substitutions. -/
def promptLit3 : Str := ("\nJob Description: ").data

/-- Literal prompt text between the `jd` substitution and the second
`linkedin` substitution. -/
def promptLit4 : Str := ("\nLinkedIn: ").data

/-- Literal prompt text after the second `linkedin` substitution. -/
def promptLit5 : Str := ("\n").data

/-- Model of `input_prompt.format(text=..., jd=..., linkedin=...)`:
substitute the three pieces into the fixed template. -/
def promptFormat (text jd linkedin : Str) : Str :=
  promptLit1 ++ linkedin ++ promptLit2 ++ text ++ promptLit3 ++ jd ++ promptLit4 ++ linkedin ++ promptLit5

/-- The prompt built at `Codes.py` line 111: the (already lowercased)
resume text truncated to 4000 characters and the job description
truncated to 1000 characters, substituted into the template. -/
def promptPieces (resume_text jd_input linkedin_url : Str) : Str :=
  promptFormat (resume_text.take 4000) (jd_input.take 1000) linkedin_url

/-- The fixed fallback payload returned by `get_gemini_response` on any
service error: the `json.dumps` rendering of the dict at `Codes.py`
line 70. -/
def fallbackJson : Str :=
  ("\x7b\"JD Match\": \"N/A\", \"MissingKeywords\": [], \"Profile Summary\": \"Error\", \"Candidate Name\": \"\", \"Role\": \"\", \"Current Company\": \"\", \"Duration\": \"\", \"Overall Experience\": \"\", \"LinkedIn\": \"\"\x7d").data

/-- Model of `get_gemini_response` (`Codes.py` lines 63-70) at the
service boundary: the argument is the outcome of
`model.generate_content` — either the reply text or a raised error.  On
success the reply text is returned; on any error the function reports
`Gemini API error: ...` to the user (first component) and returns the
fixed fallback payload. -/
def get_gemini_response (outcome : Except Str Str) : List Str × Str :=
  match outcome with
  | .ok t => ([], t)
  | .error e => ([("Gemini API error: ").data ++ e], fallbackJson)

/-- Model of Python `dict.get(k, default)` without the default: the
value stored at `k`, if any. -/
def pyGet (kvs : List (Str × Json)) (k : Str) : Option Json :=
  (kvs.find? (fun p => decide (p.1 = k))).map (fun p => p.2)

/-- Model of Python `len()` on a decoded JSON value: defined for
strings, lists and dicts, a `TypeError` (`none`) otherwise. -/
def pyLen (v : Json) : Option Nat :=
  match v with
  | .str s => some s.length
  | .arr xs => some xs.length
  | .obj kvs => some kvs.length
  | _ => none

/-- Model of Python `sep.join(v)` on a decoded JSON value: joins the
characters of a string, the elements of a list provided every element
is a string, or the keys of a dict; any other argument (or a non-string
list element) raises `TypeError` (`none`). -/
def pyJoin (sep : Str) (v : Json) : Option Str :=
  match v with
  | .str s => some (List.intercalate sep (s.map (fun c => [c])))
  | .arr xs =>
    (xs.mapM (fun x => match x with | Json.str s => some s | _ => none)).map
      (fun ss => List.intercalate sep ss)
  | .obj kvs => some (List.intercalate sep (kvs.map (fun p => p.1)))
  | _ => none

/-- The key `JD Match`. -/
def kJDMatch : Str := ("JD Match").data

/-- The key `MissingKeywords`. -/
def kMissingKeywords : Str := ("MissingKeywords").data

/-- The key `Profile Summary`. -/
def kProfileSummary : Str := ("Profile Summary").data

/-- The key `Candidate Name`. -/
def kCandidateName : Str := ("Candidate Name").data

/-- The key `Role`. -/
def kRole : Str := ("Role").data

/-- The key `Current Company`. -/
def kCurrentCompany : Str := ("Current Company").data

/-- The key `Duration`. -/
def kDuration : Str := ("Duration").data

/-- The key `Overall Experience`. -/
def kOverallExperience : Str := ("Overall Experience").data

/-- The key `LinkedIn`. -/
def kLinkedIn : Str := ("LinkedIn").data

/-- One line of the report (`results_data.append`, `Codes.py` lines
155-166): the resume file name, the extracted fields, and the
missing-keywords list joined with `, `. -/
structure Row where
  resumeFile : Str
  jdMatch : Json
  candidateName : Json
  role : Json
  currentCompany : Json
  duration : Json
  overallExperience : Json
  linkedin : Json
  missingKeywords : Str
  profileSummary : Json

/-- Field extraction and row construction for one successfully parsed
response (`Codes.py` lines 123-166): each field defaults when its key
is absent (`N/A` for the match, the empty list for the keywords, the
empty string otherwise); `str(len(missing_keywords))` at line 137 and
`", ".join(missing_keywords)` at line 164 raise `TypeError` (`none`)
when the keywords value is not sized/joinable. -/
def buildRow (fileName : Str) (o : List (Str × Json)) : Option Row :=
  let jd_match := (pyGet o kJDMatch).getD (Json.str ("N/A").data)
  let missing_keywords := (pyGet o kMissingKeywords).getD (Json.arr [])
  let profile_summary := (pyGet o kProfileSummary).getD (Json.str [])
  let candidate_name := (pyGet o kCandidateName).getD (Json.str [])
  let role := (pyGet o kRole).getD (Json.str [])
  let current_company := (pyGet o kCurrentCompany).getD (Json.str [])
  let duration := (pyGet o kDuration).getD (Json.str [])
  let overall_experience := (pyGet o kOverallExperience).getD (Json.str [])
  let linkedin := (pyGet o kLinkedIn).getD (Json.str [])
  match pyLen missing_keywords with
  | none => none
  | some _ =>
    match pyJoin (", ").data missing_keywords with
    | none => none
    | some joined =>
      some ⟨fileName, jd_match, candidate_name, role, current_company, duration,
            overall_experience, linkedin, joined, profile_summary⟩

/-- Python `repr` of a decoded JSON value, as pandas renders a
non-scalar cell when writing CSV. -/
def pyRepr : Json → Str
  | .null => ("None").data
  | .bool true => ("True").data
  | .bool false => ("False").data
  | .num n => (toString n).data
  | .str s => '\'' :: s ++ ['\'']
  | .arr xs =>
    '[' :: List.intercalate (", ").data (xs.attach.map (fun x => pyRepr x.val)) ++ [']']
  | .obj kvs =>
    '\x7b' :: List.intercalate (", ").data
      (kvs.attach.map (fun p => '\'' :: p.val.1 ++ ['\'', ':', ' '] ++ pyRepr p.val.2)) ++ ['\x7d']
decreasing_by
  · have h := List.sizeOf_lt_of_mem x.property
    simp only [Json.arr.sizeOf_spec]
    omega
  · rcases p with ⟨⟨k, v⟩, hp⟩
    have h := List.sizeOf_lt_of_mem hp
    simp only [Prod.mk.sizeOf_spec] at h
    simp only [Json.obj.sizeOf_spec]
    omega

/-- The string pandas writes for one cell value: strings verbatim,
numbers in decimal, booleans as `True`/`False`, `None` as the empty
cell, other values by their `repr`. -/
def cellStr (v : Json) : Str :=
  match v with
  | .str s => s
  | .num n => (toString n).data
  | .bool true => ("True").data
  | .bool false => ("False").data
  | .null => []
  | v => pyRepr v

/-- Whether a CSV field must be quoted under pandas' default
`QUOTE_MINIMAL` rule. -/
def csvNeedsQuote (s : Str) : Bool :=
  s.any (fun c => c = ',' ∨ c = '"' ∨ c = '\n' ∨ c = '\r')

/-- Quote a CSV field when needed, doubling interior quotes. -/
def csvQuote (s : Str) : Str :=
  if csvNeedsQuote s then
    '"' :: (s.map (fun c => if c = '"' then ['"', '"'] else [c])).flatten ++ ['"']
  else s

/-- The fixed CSV header line: the column order is the key order of the
dict appended at `Codes.py` lines 155-166, which pandas preserves. -/
def csvHeader : Str :=
  ("Resume File,JD Match,Candidate Name,Role,Current Company,Duration,Overall Experience,LinkedIn,Missing Keywords,Profile Summary").data

/-- One CSV data line: the row's cells in column order, quoted as
needed and joined with commas. -/
def csvRowLine (r : Row) : Str :=
  List.intercalate (",").data
    [csvQuote r.resumeFile, csvQuote (cellStr r.jdMatch),
     csvQuote (cellStr r.candidateName), csvQuote (cellStr r.role),
     csvQuote (cellStr r.currentCompany), csvQuote (cellStr r.duration),
     csvQuote (cellStr r.overallExperience), csvQuote (cellStr r.linkedin),
     csvQuote r.missingKeywords, csvQuote (cellStr r.profileSummary)]

/-- Model of `pd.DataFrame(results_data).to_csv(index=False)`
(`Codes.py` lines 171-172): the header line then one line per row, each
line terminated by a newline. -/
def to_csv (rows : List Row) : Str :=
  List.intercalate ("\n").data (csvHeader :: rows.map csvRowLine) ++ ("\n").data

/-- The mutable state of the evaluation loop: the error messages shown
so far, the accumulated `results_data`, and the prompts sent to the
external service so far. -/
structure St where
  errors : List Str
  rows : List Row
  calls : List Str

/-- The body of the evaluation loop for one file (`Codes.py` lines
107-166), without the loop state: the prompt sent, the error messages
shown, and the row appended (if any).  `none` models an uncaught
exception: a decoder failure in `input_resume_text`, the uncaught
`json.JSONDecodeError` raised by `json.loads(match.group())` when the
brace-extracted substring still does not parse, an `AttributeError`
from `.get` on a non-dict parse result, or a `TypeError` from
`len`/`join` on a non-joinable keywords value. -/
def processedOne (jd link : Str) (service : Str → Except Str Str) (f : UploadedFile) :
    Option (Str × List Str × Option Row) :=
  match input_resume_text f with
  | none => none
  | some raw =>
    let resume_text := strLower raw
    let prompt := promptPieces resume_text jd link
    let out := get_gemini_response (service prompt)
    match json_loads out.2 with
    | some (Json.obj o) =>
      match buildRow f.name o with
      | some r => some (prompt, out.1, some r)
      | none => none
    | some _ => none
    | none =>
      match braceExtract out.2 with
      | some t =>
        match json_loads t with
        | some (Json.obj o) =>
          match buildRow f.name o with
          | some r => some (prompt, out.1, some r)
          | none => none
        | some _ => none
        | none => none
      | none => some (prompt, out.1 ++ [("Failed to parse JSON.").data], none)

/-- One iteration of the evaluation loop: process the file and append
its messages, row and prompt to the loop state; `none` propagates an
uncaught exception, aborting the run. -/
def stepFile (jd link : Str) (service : Str → Except Str Str) (s : St) (f : UploadedFile) :
    Option St :=
  match processedOne jd link service f with
  | none => none
  | some (prompt, msgs, orow) =>
    some { errors := s.errors ++ msgs, rows := s.rows ++ orow.toList,
           calls := s.calls ++ [prompt] }

/-- The observable outcome of one press of the evaluate button. -/
structure RunOut where
  errors : List Str
  rows : List Row
  calls : List Str
  download : Option Str

/-- The validation error at `Codes.py` line 104. -/
def validationError : Str := ("Please provide both JD and at least one resume.").data

/-- Model of the evaluate-button handler (`Codes.py` lines 102-173): if
no file was uploaded or the stripped job description is empty, reject
the run with the validation error and do nothing else; otherwise
process the files in order and, when at least one row was collected,
offer the CSV report for download.  `none` models an uncaught exception
aborting the run. -/
def evaluateRun (jd : Str) (files : List UploadedFile) (link : Str)
    (service : Str → Except Str Str) : Option RunOut :=
  if files.isEmpty ∨ (pyStrip jd).isEmpty then
    some { errors := [validationError], rows := [], calls := [], download := none }
  else
    (files.foldlM (stepFile jd link service) { errors := [], rows := [], calls := [] }).map
      (fun s =>
        { errors := s.errors, rows := s.rows, calls := s.calls,
          download := if s.rows.isEmpty then none else some (to_csv s.rows) })

theorem char_toNat_ofNat_valid (n : Nat) (h : n.isValidChar) : (Char.ofNat n).toNat = n := by
  unfold Char.ofNat
  rw [dif_pos h]
  rfl

theorem pyLower_no_upper (c : Char) : ¬ (65 ≤ (pyLower c).toNat ∧ (pyLower c).toNat ≤ 90) := by
  unfold pyLower
  by_cases h : 65 ≤ c.toNat ∧ c.toNat ≤ 90
  · rw [if_pos h]
    rw [char_toNat_ofNat_valid (c.toNat + 32) (Or.inl (by omega))]
    omega
  · rw [if_neg h]
    exact h

/-- C4. For every resume text longer than 4000 characters the prompt
built at `Codes.py` line 111 embeds exactly its first 4000 characters,
and for every job-description text longer than 1000 characters exactly
its first 1000 characters; shorter inputs are embedded unchanged. -/
theorem c4_truncation (text jd link : Str) :
    promptPieces text jd link =
      promptLit1 ++ link ++ promptLit2 ++ text.take 4000 ++ promptLit3 ++
        jd.take 1000 ++ promptLit4 ++ link ++ promptLit5 ∧
    (4000 < text.length →
      (text.take 4000).length = 4000 ∧ ∃ rest, text = text.take 4000 ++ rest) ∧
    (text.length ≤ 4000 → text.take 4000 = text) ∧
    (1000 < jd.length →
      (jd.take 1000).length = 1000 ∧ ∃ rest, jd = jd.take 1000 ++ rest) ∧
    (jd.length ≤ 1000 → jd.take 1000 = jd) := by
  refine ⟨rfl, fun h => ⟨?_, ⟨text.drop 4000, (List.take_append_drop 4000 text).symm⟩⟩,
    fun h => List.take_of_length_le h,
    fun h => ⟨?_, ⟨jd.drop 1000, (List.take_append_drop 1000 jd).symm⟩⟩,
    fun h => List.take_of_length_le h⟩
  · rw [List.length_take]
    omega
  · rw [List.length_take]
    omega

theorem c4_truncation_witness :
    4000 < (List.replicate 4001 'a').length ∧
    1000 < (List.replicate 1001 'b').length ∧
    ((List.replicate 4001 'a').take 4000).length = 4000 ∧
    ((List.replicate 1001 'b').take 1000).length = 1000 ∧
    (List.replicate 99 'c').take 4000 = List.replicate 99 'c' := by
  have h := c4_truncation (List.replicate 4001 'a') (List.replicate 1001 'b') []
  have h' := c4_truncation (List.replicate 99 'c') [] []
  refine ⟨by rw [List.length_replicate]; omega, by rw [List.length_replicate]; omega,
    (h.2.1 (by rw [List.length_replicate]; omega)).1,
    (h.2.2.2.1 (by rw [List.length_replicate]; omega)).1,
    h'.2.2.1 (by rw [List.length_replicate]; omega)⟩

/-- C7. For every uploaded file whose name ends in neither `.pdf` nor
`.docx`, `input_resume_text` returns the empty string, whatever the
file's content is, and without failing. -/
theorem c7_unsupported_ext (name : Str) (content : DocContent)
    (h1 : (".pdf").data.isSuffixOf name = false)
    (h2 : (".docx").data.isSuffixOf name = false) :
    input_resume_text ⟨name, content⟩ = some [] := by
  unfold input_resume_text
  simp only [h1, h2, Bool.false_eq_true, if_false]

theorem c7_unsupported_ext_witness :
    (".pdf").data.isSuffixOf ("resume.txt").data = false ∧
    (".docx").data.isSuffixOf ("resume.txt").data = false ∧
    input_resume_text ⟨("resume.txt").data, DocContent.rawDoc⟩ = some [] :=
  ⟨by decide, by decide,
    c7_unsupported_ext ("resume.txt").data DocContent.rawDoc (by decide) (by decide)⟩

/-- C8. If the user triggers a run with zero uploaded files or a blank
(all-whitespace) job description, the run is rejected with the
validation error and nothing else happens: no service call, no rows, no
download. -/
theorem c8_validation (jd : Str) (files : List UploadedFile) (link : Str)
    (service : Str → Except Str Str) (h : files = [] ∨ pyStrip jd = []) :
    evaluateRun jd files link service =
      some { errors := [validationError], rows := [], calls := [], download := none } := by
  unfold evaluateRun
  rw [if_pos]
  rcases h with h | h
  · exact Or.inl (by rw [h]; rfl)
  · exact Or.inr (by rw [h]; rfl)

theorem c8_validation_witness :
    evaluateRun ("   \t ").data [⟨("a.docx").data, DocContent.docxDoc ("x").data⟩] []
        (fun _ => Except.ok []) =
      some { errors := [validationError], rows := [], calls := [], download := none } :=
  c8_validation ("   \t ").data [⟨("a.docx").data, DocContent.docxDoc ("x").data⟩] []
    (fun _ => Except.ok []) (Or.inr (by decide))

theorem pyJoin_arr_str (sep : Str) (ms : List Str) :
    pyJoin sep (Json.arr (ms.map Json.str)) = some (List.intercalate sep ms) := by
  have h : List.mapM (fun x => match x with | Json.str s => some s | _ => none)
      (ms.map Json.str) = some ms := by
    induction ms with
    | nil => rfl
    | cons a l ih => rw [List.map_cons, List.mapM_cons, ih]; rfl
  simp only [pyJoin, h, Option.map_some']

/-- C2 counterexample: on a service error `get_gemini_response` returns
the fixed fallback payload, but its `Profile Summary` field is the
string `Error`, which is neither empty nor `N/A` — so not all fields of
the fallback are empty/`N/A` placeholders. -/
theorem c2_counterexample :
    (get_gemini_response (Except.error ("boom").data)).2 = fallbackJson ∧
    json_loads fallbackJson =
      some (Json.obj
        [(kJDMatch, Json.str ("N/A").data), (kMissingKeywords, Json.arr []),
         (kProfileSummary, Json.str ("Error").data), (kCandidateName, Json.str []),
         (kRole, Json.str []), (kCurrentCompany, Json.str []), (kDuration, Json.str []),
         (kOverallExperience, Json.str []), (kLinkedIn, Json.str [])]) ∧
    ¬(("Error").data = ([] : Str) ∨ ("Error").data = ("N/A").data) :=
  ⟨rfl, rfl, by decide⟩

/-- C2 (amended). On any error raised by the service call,
`get_gemini_response` reports `Gemini API error: ...` to the user and
returns the fixed fallback JSON string, independent of the prompt and
of the error, so it preserves no resume-specific data and never
re-raises; the fallback parses as a JSON object whose fields are all
fixed placeholders: `N/A` for the match, the empty list for the
keywords, `Error` for the profile summary and the empty string for the
rest. -/
theorem c2_gemini_fallback (e : Str) :
    get_gemini_response (Except.error e) = ([("Gemini API error: ").data ++ e], fallbackJson) ∧
    json_loads fallbackJson =
      some (Json.obj
        [(kJDMatch, Json.str ("N/A").data), (kMissingKeywords, Json.arr []),
         (kProfileSummary, Json.str ("Error").data), (kCandidateName, Json.str []),
         (kRole, Json.str []), (kCurrentCompany, Json.str []), (kDuration, Json.str []),
         (kOverallExperience, Json.str []), (kLinkedIn, Json.str [])]) :=
  ⟨rfl, rfl⟩

/-- C3 counterexample: a response that is exactly a JSON object with
all nine keys parses directly and yields a row, but the row's
Missing Keywords field holds the list joined with `, ` — the string
`sql, aws` — not the input list value verbatim. -/
theorem c3_counterexample :
    json_loads (("\x7b\"JD Match\":\"80%\",\"MissingKeywords\":[\"sql\",\"aws\"],\"Profile Summary\":\"ok\",\"Candidate Name\":\"Jo\",\"Role\":\"Dev\",\"Current Company\":\"X\",\"Duration\":\"2y\",\"Overall Experience\":\"5y\",\"LinkedIn\":\"url\"\x7d").data) =
      some (Json.obj
        [(kJDMatch, Json.str ("80%").data),
         (kMissingKeywords, Json.arr [Json.str ("sql").data, Json.str ("aws").data]),
         (kProfileSummary, Json.str ("ok").data), (kCandidateName, Json.str ("Jo").data),
         (kRole, Json.str ("Dev").data), (kCurrentCompany, Json.str ("X").data),
         (kDuration, Json.str ("2y").data), (kOverallExperience, Json.str ("5y").data),
         (kLinkedIn, Json.str ("url").data)]) ∧
    buildRow ("cv.pdf").data
        [(kJDMatch, Json.str ("80%").data),
         (kMissingKeywords, Json.arr [Json.str ("sql").data, Json.str ("aws").data]),
         (kProfileSummary, Json.str ("ok").data), (kCandidateName, Json.str ("Jo").data),
         (kRole, Json.str ("Dev").data), (kCurrentCompany, Json.str ("X").data),
         (kDuration, Json.str ("2y").data), (kOverallExperience, Json.str ("5y").data),
         (kLinkedIn, Json.str ("url").data)] =
      some ⟨("cv.pdf").data, Json.str ("80%").data, Json.str ("Jo").data,
        Json.str ("Dev").data, Json.str ("X").data, Json.str ("2y").data,
        Json.str ("5y").data, Json.str ("url").data, ("sql, aws").data,
        Json.str ("ok").data⟩ ∧
    Json.str (("sql, aws").data) ≠
      Json.arr [Json.str ("sql").data, Json.str ("aws").data] :=
  ⟨rfl, rfl, fun h => Json.noConfusion h⟩

/-- C3 (amended). A response that is exactly a well-formed JSON object
with all nine expected keys, whose `MissingKeywords` value is a list of
strings, parses directly and yields a ReportRow whose fields equal the
input object's values verbatim — except the Missing Keywords field,
which is the input list joined with `, `, and the Resume File field,
which is the file name. -/
theorem c3_identity (r name : Str) (o : List (Str × Json))
    (jm cn ro cc du oe li ps : Json) (ms : List Str)
    (_hr : json_loads r = some (Json.obj o))
    (h1 : pyGet o kJDMatch = some jm)
    (h2 : pyGet o kMissingKeywords = some (Json.arr (ms.map Json.str)))
    (h3 : pyGet o kProfileSummary = some ps)
    (h4 : pyGet o kCandidateName = some cn)
    (h5 : pyGet o kRole = some ro)
    (h6 : pyGet o kCurrentCompany = some cc)
    (h7 : pyGet o kDuration = some du)
    (h8 : pyGet o kOverallExperience = some oe)
    (h9 : pyGet o kLinkedIn = some li) :
    buildRow name o =
      some ⟨name, jm, cn, ro, cc, du, oe, li, List.intercalate (", ").data ms, ps⟩ := by
  unfold buildRow
  rw [h1, h2, h3, h4, h5, h6, h7, h8, h9]
  simp only [Option.getD_some, pyLen, pyJoin_arr_str]

theorem c3_identity_witness :
    json_loads (("\x7b\"JD Match\":\"70%\",\"MissingKeywords\":[\"go\"],\"Profile Summary\":\"fine\",\"Candidate Name\":\"Al\",\"Role\":\"SRE\",\"Current Company\":\"Y\",\"Duration\":\"1y\",\"Overall Experience\":\"3y\",\"LinkedIn\":\"lnk\"\x7d").data) =
      some (Json.obj
        [(kJDMatch, Json.str ("70%").data), (kMissingKeywords, Json.arr [Json.str ("go").data]),
         (kProfileSummary, Json.str ("fine").data), (kCandidateName, Json.str ("Al").data),
         (kRole, Json.str ("SRE").data), (kCurrentCompany, Json.str ("Y").data),
         (kDuration, Json.str ("1y").data), (kOverallExperience, Json.str ("3y").data),
         (kLinkedIn, Json.str ("lnk").data)]) ∧
    buildRow ("cv.docx").data
        [(kJDMatch, Json.str ("70%").data), (kMissingKeywords, Json.arr [Json.str ("go").data]),
         (kProfileSummary, Json.str ("fine").data), (kCandidateName, Json.str ("Al").data),
         (kRole, Json.str ("SRE").data), (kCurrentCompany, Json.str ("Y").data),
         (kDuration, Json.str ("1y").data), (kOverallExperience, Json.str ("3y").data),
         (kLinkedIn, Json.str ("lnk").data)] =
      some ⟨("cv.docx").data, Json.str ("70%").data, Json.str ("Al").data,
        Json.str ("SRE").data, Json.str ("Y").data, Json.str ("1y").data,
        Json.str ("3y").data, Json.str ("lnk").data, ("go").data,
        Json.str ("fine").data⟩ :=
  ⟨rfl,
    c3_identity (("\x7b\"JD Match\":\"70%\",\"MissingKeywords\":[\"go\"],\"Profile Summary\":\"fine\",\"Candidate Name\":\"Al\",\"Role\":\"SRE\",\"Current Company\":\"Y\",\"Duration\":\"1y\",\"Overall Experience\":\"3y\",\"LinkedIn\":\"lnk\"\x7d").data)
      (("cv.docx").data) _ _ _ _ _ _ _ _ _ [("go").data]
      rfl rfl rfl rfl rfl rfl rfl rfl rfl rfl⟩

/-- C6 counterexample: the object `\x7b"MissingKeywords": 0\x7d` parses
successfully, yet no ReportRow is created for it — `len(0)` (and
`", ".join(0)`) raises `TypeError`, so a parsed object does not always
yield a row. -/
theorem c6_counterexample :
    json_loads (("\x7b\"MissingKeywords\": 0\x7d").data) =
      some (Json.obj [(kMissingKeywords, Json.num 0)]) ∧
    buildRow ("cv.pdf").data [(kMissingKeywords, Json.num 0)] = none :=
  ⟨rfl, rfl⟩

/-- C6 (amended). Field extraction substitutes a per-field default
(empty string; `N/A` for the match; empty list for the keywords) for
each absent key, so a missing key is never fatal: every parsed object
whose `MissingKeywords` value is sized and joinable — in particular
every object in which that key is absent, such as the empty object —
yields a ReportRow. -/
theorem c6_defaults (name : Str) (o : List (Str × Json))
    (hmk : (pyLen ((pyGet o kMissingKeywords).getD (Json.arr []))).isSome = true ∧
      (pyJoin (", ").data ((pyGet o kMissingKeywords).getD (Json.arr []))).isSome = true) :
    ∃ row, buildRow name o = some row ∧
      row.resumeFile = name ∧
      (pyGet o kJDMatch = none → row.jdMatch = Json.str ("N/A").data) ∧
      (pyGet o kMissingKeywords = none → row.missingKeywords = []) ∧
      (pyGet o kProfileSummary = none → row.profileSummary = Json.str []) ∧
      (pyGet o kCandidateName = none → row.candidateName = Json.str []) ∧
      (pyGet o kRole = none → row.role = Json.str []) ∧
      (pyGet o kCurrentCompany = none → row.currentCompany = Json.str []) ∧
      (pyGet o kDuration = none → row.duration = Json.str []) ∧
      (pyGet o kOverallExperience = none → row.overallExperience = Json.str []) ∧
      (pyGet o kLinkedIn = none → row.linkedin = Json.str []) := by
  obtain ⟨hl, hj⟩ := hmk
  rw [Option.isSome_iff_exists] at hl hj
  obtain ⟨n, hn⟩ := hl
  obtain ⟨joined, hjoined⟩ := hj
  refine ⟨⟨name, (pyGet o kJDMatch).getD (Json.str ("N/A").data),
    (pyGet o kCandidateName).getD (Json.str []), (pyGet o kRole).getD (Json.str []),
    (pyGet o kCurrentCompany).getD (Json.str []), (pyGet o kDuration).getD (Json.str []),
    (pyGet o kOverallExperience).getD (Json.str []), (pyGet o kLinkedIn).getD (Json.str []),
    joined, (pyGet o kProfileSummary).getD (Json.str [])⟩, ?_, rfl, ?_, ?_, ?_, ?_, ?_, ?_, ?_, ?_, ?_⟩
  · simp only [buildRow, hn, hjoined]
  · intro h
    simp only [h, Option.getD_none]
  · intro h
    have h2 := pyJoin_arr_str (", ").data []
    simp only [List.map_nil] at h2
    rw [h, Option.getD_none, h2] at hjoined
    have h3 : joined = List.intercalate (", ").data [] := (Option.some.inj hjoined).symm
    exact h3.trans rfl
  all_goals intro h
  all_goals simp only [h, Option.getD_none]

theorem c6_defaults_witness :
    (pyLen ((pyGet [] kMissingKeywords).getD (Json.arr []))).isSome = true ∧
    ∃ row, buildRow ("cv.pdf").data [] = some row ∧
      row.jdMatch = Json.str ("N/A").data ∧ row.missingKeywords = [] := by
  have h := c6_defaults ("cv.pdf").data [] ⟨rfl, rfl⟩
  obtain ⟨row, hb, _, hjd, hmk, _⟩ := h
  exact ⟨rfl, row, hb, hjd rfl, hmk rfl⟩

/-- C1 is a code bug, demonstrated here: a reply whose text fails the
direct parse and whose brace-extracted substring also fails to parse
does not skip the resume — `json.loads(match.group())` at `Codes.py`
line 118 sits inside the `except` block with no guard of its own, so
the `json.JSONDecodeError` it raises is uncaught and the whole run
aborts (`none`): the batch produces no rows, no per-item error and the
second resume is never processed. -/
theorem c1_code_divergence :
    json_loads (("\x7bbad\x7d").data) = none ∧
    braceExtract (("\x7bbad\x7d").data) = some (("\x7bbad\x7d").data) ∧
    evaluateRun ("jd").data
        [⟨("a.docx").data, DocContent.docxDoc ("hello").data⟩,
         ⟨("b.docx").data, DocContent.docxDoc ("world").data⟩] []
        (fun _ => Except.ok (("\x7bbad\x7d").data)) = none :=
  ⟨rfl, rfl, rfl⟩

theorem foldlM_rows_eq (jd link : Str) (service : Str → Except Str Str) :
    ∀ (files : List UploadedFile) (s t : St),
      List.foldlM (stepFile jd link service) s files = some t →
      t.rows = s.rows ++ files.filterMap
        (fun f => (processedOne jd link service f).bind (fun x => x.2.2)) := by
  intro files
  induction files with
  | nil =>
    intro s t h
    simp only [List.foldlM_nil] at h
    cases h
    simp
  | cons f fs ih =>
    intro s t h
    rw [List.foldlM_cons] at h
    cases hp : processedOne jd link service f with
    | none =>
      rw [show stepFile jd link service s f = none by simp [stepFile, hp]] at h
      simp at h
    | some x =>
      obtain ⟨prompt, msgs, orow⟩ := x
      rw [show stepFile jd link service s f =
            some { errors := s.errors ++ msgs, rows := s.rows ++ orow.toList,
                   calls := s.calls ++ [prompt] } by simp [stepFile, hp]] at h
      simp only [Option.bind_eq_bind, Option.some_bind] at h
      have ht := ih _ _ h
      rw [List.filterMap_cons, hp]
      cases orow with
      | none => simpa using ht
      | some r => simp only [Option.bind_eq_bind, Option.some_bind] at ht ⊢; simp [ht]

/-- C5. A completed run aggregates exactly one ReportRow per
successfully parsed resume, in processing order (the in-order
`filterMap` of the per-file results); the download is offered exactly
when at least one row was collected and carries the CSV serialization
of the rows, whose header line is the fixed column order
`Resume File,JD Match,Candidate Name,Role,Current Company,Duration,Overall Experience,LinkedIn,Missing Keywords,Profile Summary`. -/
theorem c5_report (jd link : Str) (files : List UploadedFile)
    (service : Str → Except Str Str) (out : RunOut)
    (hv : ¬(files.isEmpty = true ∨ (pyStrip jd).isEmpty = true))
    (h : evaluateRun jd files link service = some out) :
    out.rows = files.filterMap
      (fun f => (processedOne jd link service f).bind (fun x => x.2.2)) ∧
    out.download = (if out.rows.isEmpty then none else some (to_csv out.rows)) ∧
    to_csv out.rows =
      List.intercalate ("\n").data (csvHeader :: out.rows.map csvRowLine) ++ ("\n").data ∧
    csvHeader = ("Resume File,JD Match,Candidate Name,Role,Current Company,Duration,Overall Experience,LinkedIn,Missing Keywords,Profile Summary").data := by
  unfold evaluateRun at h
  rw [if_neg hv] at h
  cases hf : List.foldlM (stepFile jd link service)
      { errors := [], rows := [], calls := [] } files with
  | none => rw [hf] at h; simp at h
  | some st =>
    rw [hf] at h
    simp only [Option.map_some'] at h
    have hrows := foldlM_rows_eq jd link service files _ _ hf
    cases h
    refine ⟨by simpa using hrows, rfl, rfl, rfl⟩

theorem c5_report_witness :
    ∃ out,
      evaluateRun ("jd").data
          [⟨("g.docx").data, DocContent.docxDoc ("alpha").data⟩,
           ⟨("b.docx").data, DocContent.docxDoc ("beta").data⟩] []
          (fun p => if p = promptPieces (("alpha").data) (("jd").data) [] then
              Except.ok (("\x7b\"JD Match\":\"90%\"\x7d").data)
            else Except.ok (("nope").data)) = some out ∧
      out.rows = [⟨("g.docx").data, Json.str ("90%").data, Json.str [], Json.str [],
        Json.str [], Json.str [], Json.str [], Json.str [], [], Json.str []⟩] ∧
      out.download.isSome = true := by
  refine ⟨_, rfl, ?_, ?_⟩
  · have h := c5_report ("jd").data []
      [⟨("g.docx").data, DocContent.docxDoc ("alpha").data⟩,
       ⟨("b.docx").data, DocContent.docxDoc ("beta").data⟩]
      (fun p => if p = promptPieces (("alpha").data) (("jd").data) [] then
          Except.ok (("\x7b\"JD Match\":\"90%\"\x7d").data)
        else Except.ok (("nope").data)) _ (by decide) rfl
    rw [h.1]
    rfl
  · rfl

theorem dropWhile_append_all {p : Char → Bool} (l₁ l₂ : Str) (h : ∀ a ∈ l₁, p a = true) :
    List.dropWhile p (l₁ ++ l₂) = List.dropWhile p l₂ := by
  have h1 : List.dropWhile p l₁ = [] := List.dropWhile_eq_nil_iff.mpr h
  rw [List.dropWhile_append, h1]
  rfl

theorem braceExtract_first_last (p m q : Str) (hp : '{' ∉ p) (hq : '}' ∉ q) :
    braceExtract (p ++ '{' :: (m ++ '}' :: q)) = some ('{' :: (m ++ ['}'])) := by
  have h1 : List.dropWhile (fun c => ¬ c = '{') (p ++ '{' :: (m ++ '}' :: q)) =
      '{' :: (m ++ '}' :: q) := by
    rw [dropWhile_append_all p _ ?hall]
    case hall =>
      intro a ha
      simp only [decide_eq_true_eq]
      exact fun heq => hp (heq ▸ ha)
    rw [List.dropWhile_cons, if_neg]
    simp
  have hrev : ('{' :: (m ++ '}' :: q)).reverse = q.reverse ++ '}' :: (m.reverse ++ ['{']) := by
    simp [List.reverse_cons, List.reverse_append, List.append_assoc]
  have h2 : List.dropWhile (fun c => ¬ c = '}')
      (q.reverse ++ '}' :: (m.reverse ++ ['{'])) = '}' :: (m.reverse ++ ['{']) := by
    rw [dropWhile_append_all q.reverse _ ?hall2]
    case hall2 =>
      intro a ha
      simp only [decide_eq_true_eq]
      exact fun heq => hq (heq ▸ (List.mem_reverse.mp ha))
    rw [List.dropWhile_cons, if_neg]
    simp
  simp only [braceExtract, h1, hrev, h2]
  simp [List.reverse_cons, List.reverse_append]

/-- C9 counterexample: the response `\x7bops \x7b"a":"b"\x7d` embeds the
valid JSON object `\x7b"a":"b"\x7d` in surrounding non-JSON text and is
not directly parseable, yet the fallback step does not parse it: the
greedy match starts at the *first* `\x7b`, which belongs to the
surrounding text, so the extracted substring is the whole tail and
still fails to parse. -/
theorem c9_counterexample :
    (("\x7bops \x7b\"a\":\"b\"\x7d").data =
      ("\x7bops ").data ++ ("\x7b\"a\":\"b\"\x7d").data) ∧
    json_loads (("\x7b\"a\":\"b\"\x7d").data) =
      some (Json.obj [(("a").data, Json.str ("b").data)]) ∧
    json_loads (("\x7bops \x7b\"a\":\"b\"\x7d").data) = none ∧
    (braceExtract (("\x7bops \x7b\"a\":\"b\"\x7d").data)).bind json_loads = none :=
  ⟨rfl, rfl, rfl, rfl⟩

/-- C9 (amended). The fallback extraction selects the substring from
the first `\x7b` of the text to the last `\x7d` of the text (greedy,
newlines included, no balanced-brace handling), and finds no substring
exactly when no `\x7d` follows a `\x7b` — every such text, including
one with both braces in the wrong order, splits as a `\x7b`-free
prefix followed by a `\x7d`-free suffix, the form the second conjunct
quantifies over; in particular a valid JSON object embedded in
surrounding non-JSON text is successfully parsed by this step provided
the text before the object contains no `\x7b` and the text after it
contains no `\x7d`. -/
theorem c9_rule :
    (∀ p m q : Str, '{' ∉ p → '}' ∉ q →
      braceExtract (p ++ '{' :: (m ++ '}' :: q)) = some ('{' :: (m ++ ['}']))) ∧
    (∀ p q : Str, '{' ∉ p → '}' ∉ q → braceExtract (p ++ q) = none) ∧
    (∀ (p m q : Str) (v : Json), '{' ∉ p → '}' ∉ q →
      json_loads ('{' :: (m ++ ['}'])) = some v →
      (braceExtract (p ++ '{' :: (m ++ '}' :: q))).bind json_loads = some v) := by
  refine ⟨braceExtract_first_last, ?_, ?_⟩
  · intro p q hp hq
    have h1 : List.dropWhile (fun c => ¬ c = '{') (p ++ q) =
        List.dropWhile (fun c => ¬ c = '{') q := by
      apply dropWhile_append_all
      intro a ha
      simp only [decide_eq_true_eq]
      exact fun heq => hp (heq ▸ ha)
    have h2 : List.dropWhile (fun c => ¬ c = '}')
        (List.dropWhile (fun c => ¬ c = '{') q).reverse = [] := by
      rw [List.dropWhile_eq_nil_iff]
      intro a ha
      simp only [decide_eq_true_eq]
      have ha2 : a ∈ q :=
        (List.dropWhile_sublist (fun c => ¬ c = '{')).subset (List.mem_reverse.mp ha)
      exact fun heq => hq (heq ▸ ha2)
    simp only [braceExtract]
    rw [h1, h2]
    rfl
  · intro p m q v hp hq hv
    rw [braceExtract_first_last p m q hp hq]
    simpa using hv

theorem c9_rule_witness :
    braceExtract (("Sure! ").data ++ '{' :: ((("\"a\":\"b\"").data) ++ '}' :: (" bye").data)) =
      some ('{' :: ((("\"a\":\"b\"").data) ++ ['}'])) ∧
    braceExtract (("\x7doops").data ++ ("\x7b").data) = none ∧
    (braceExtract
        (("Sure! ").data ++ '{' :: ((("\"a\":\"b\"").data) ++ '}' :: (" bye").data))).bind
      json_loads = some (Json.obj [(("a").data, Json.str ("b").data)]) :=
  ⟨c9_rule.1 (("Sure! ").data) (("\"a\":\"b\"").data) ((" bye").data) (by decide) (by decide),
   c9_rule.2.1 (("\x7doops").data) (("\x7b").data) (by decide) (by decide),
   c9_rule.2.2 (("Sure! ").data) (("\"a\":\"b\"").data) ((" bye").data)
     (Json.obj [(("a").data, Json.str ("b").data)]) (by decide) (by decide) rfl⟩

/-- C10. For every uploaded resume whose extraction succeeds, the
prompt actually sent embeds the extracted text lowercased in its
entirety and only then truncated to 4000 characters, and that embedded
segment contains no ASCII uppercase character. -/
theorem c10_lowercase (jd link raw : Str) (service : Str → Except Str Str)
    (f : UploadedFile) (x : Str × List Str × Option Row)
    (hf : input_resume_text f = some raw)
    (hx : processedOne jd link service f = some x) :
    x.1 = promptFormat ((strLower raw).take 4000) (jd.take 1000) link ∧
    ∀ c ∈ (strLower raw).take 4000, ¬(65 ≤ c.toNat ∧ c.toNat ≤ 90) := by
  constructor
  · simp only [processedOne, hf] at hx
    repeat
      first
      | exact Option.noConfusion hx
      | (cases hx; rfl)
      | split at hx
  · intro c hc
    have hc2 : c ∈ strLower raw := List.mem_of_mem_take hc
    obtain ⟨d, _, hd⟩ := List.mem_map.mp hc2
    rw [← hd]
    exact pyLower_no_upper d

theorem c10_lowercase_witness :
    input_resume_text ⟨("a.docx").data, DocContent.docxDoc ("AbC").data⟩ =
      some ("AbC").data ∧
    processedOne ("J").data []
        (fun _ => Except.ok (("\x7b\"JD Match\":\"50%\"\x7d").data))
        ⟨("a.docx").data, DocContent.docxDoc ("AbC").data⟩ =
      some (promptPieces (("abc").data) (("J").data) [], [],
        some ⟨("a.docx").data, Json.str ("50%").data, Json.str [], Json.str [],
          Json.str [], Json.str [], Json.str [], Json.str [], [], Json.str []⟩) ∧
    promptPieces (("abc").data) (("J").data) [] =
      promptFormat ((strLower ("AbC").data).take 4000) ((("J").data).take 1000) [] ∧
    ((strLower ("AbC").data).take 4000).all
      (fun c => decide (¬ (65 ≤ c.toNat ∧ c.toNat ≤ 90))) = true := by
  have h := c10_lowercase ("J").data [] ("AbC").data
    (fun _ => Except.ok (("\x7b\"JD Match\":\"50%\"\x7d").data))
    ⟨("a.docx").data, DocContent.docxDoc ("AbC").data⟩
    (promptPieces (("abc").data) (("J").data) [], [],
      some ⟨("a.docx").data, Json.str ("50%").data, Json.str [], Json.str [],
        Json.str [], Json.str [], Json.str [], Json.str [], [], Json.str []⟩)
    rfl rfl
  refine ⟨rfl, rfl, h.1, ?_⟩
  rw [List.all_eq_true]
  intro c hc
  simp only [decide_eq_true_eq]
  exact h.2 c hc
